import Mathlib

/-!
# Trie node cache factory (`storage/statedb/cache.go`)

A shallow embedding of the cache-type table, `TrieNodeCacheType.ToValid` and
`NewTrieNodeCache`, followed by the properties established for them.

Modelling conventions.

* A Go `string` is a Lean `String` (the valid UTF-8 strings).
* Go `int` is `Int`; the factory performs no arithmetic on it.
* An interface value that may be `nil` is an `Option`: `none` is `nil`.
* `strings.ToLower` maps `unicode.ToLower` over the runes of the string.  For
  ASCII runes the mapping is written out; for the other runes it is the
  case table of the Go standard library, taken as the parameter `tbl`.  Every
  statement below holds for every such table.
* `NewFastCache`, `NewRedisCache` and `NewHybridCache` live in other files of
  the package.  The factory takes them as the parameter `b : Backends Cache`;
  where a statement is about what they return, they are the definitions
  marked `Modelled from the spec:`.
* "Ignoring letter case" is `matchesIgnoringCase`, defined rune by rune and
  independently of `ToLower`, with which the source is compared.
-/

namespace statedb

/-! ## `strings.ToLower` -/

/-- The Go function `unicode.ToLower`: an ASCII rune is lowered by the range
test `'A' <= r && r <= 'Z'`, any other rune goes through the case table. -/
def unicodeToLower (tbl : Char → Char) (r : Char) : Char :=
  if r.toNat ≤ 127 then
    if 65 ≤ r.toNat ∧ r.toNat ≤ 90 then Char.ofNat (r.toNat + 32) else r
  else tbl r

/-- The Go function `strings.ToLower`: `unicode.ToLower` applied to every rune. -/
def ToLower (tbl : Char → Char) (s : String) : String :=
  String.mk (s.data.map (unicodeToLower tbl))

/-! ## Data model -/

/-- The Go declaration `type TrieNodeCacheType string`. -/
abbrev TrieNodeCacheType := String

/-- TrieNodeCacheConfig contains configuration values of all TrieNodeCache. -/
structure TrieNodeCacheConfig where
  CacheType : TrieNodeCacheType
  FastCacheSizeMB : Int
  RedisEndpoints : List String
  RedisClusterEnable : Bool
deriving DecidableEq

/-- Available stateDB cache type `LocalCache`. -/
def LocalCache : TrieNodeCacheType := "LocalCache"

/-- Available stateDB cache type `RemoteCache`. -/
def RemoteCache : TrieNodeCacheType := "RemoteCache"

/-- Available stateDB cache type `HybridCache`. -/
def HybridCache : TrieNodeCacheType := "HybridCache"

/-- The table of valid cache types, in source order. -/
def validTrieNodeCacheTypes : List TrieNodeCacheType :=
  [LocalCache, RemoteCache, HybridCache]

/-- A Go `error` value created by `errors.New`, identified by its text. -/
structure Error where
  text : String
deriving DecidableEq

/-- The package variable `errNotSupportedCacheType`. -/
def errNotSupportedCacheType : Error :=
  ⟨"not supported stateDB TrieNodeCache type"⟩

/-! ## `TrieNodeCacheType.ToValid` -/

/-- The `for ... range` loop of `ToValid` over the remaining valid types: the
first valid type whose lower-cased spelling equals that of `cacheType` is
returned, and `""` once the table is exhausted. -/
def ToValid.loop (tbl : Char → Char) (cacheType : TrieNodeCacheType) :
    List TrieNodeCacheType → TrieNodeCacheType
  | [] => ""
  | validType :: rest =>
    if ToLower tbl cacheType = ToLower tbl validType then validType
    else ToValid.loop tbl cacheType rest

/-- The method `func (cacheType TrieNodeCacheType) ToValid() TrieNodeCacheType`. -/
def ToValid (tbl : Char → Char) (cacheType : TrieNodeCacheType) : TrieNodeCacheType :=
  ToValid.loop tbl cacheType validTrieNodeCacheTypes

/-! ## `NewTrieNodeCache` -/

/-- The three backend constructors of the package, which the factory calls.
A `TrieNodeCache` interface value is an `Option Cache`, an `error` an
`Option Error`. -/
structure Backends (Cache : Type) where
  NewFastCache : Int → Option Cache
  NewRedisCache : List String → Bool → Option Cache × Option Error
  NewHybridCache : TrieNodeCacheConfig → Option Cache × Option Error

/-- One invocation of a backend constructor, with the arguments handed over. -/
inductive ConstructorCall where
  | NewFastCache (sizeMB : Int)
  | NewRedisCache (endpoints : List String) (isCluster : Bool)
  | NewHybridCache (config : TrieNodeCacheConfig)
deriving DecidableEq

/-- What one run of the factory does: the constructor calls it makes, in
order, and the pair `(TrieNodeCache, error)` it returns. -/
structure Run (Cache : Type) where
  calls : List ConstructorCall
  ret : Option Cache × Option Error

/-- The function `NewTrieNodeCache`: a `switch` on `config.CacheType` with one
case per cache type, compared by string equality; the `default` case falls
through to `return nil, errNotSupportedCacheType`. -/
def NewTrieNodeCache {Cache : Type} (b : Backends Cache) (config : TrieNodeCacheConfig) :
    Run Cache :=
  if config.CacheType = LocalCache then
    { calls := [ConstructorCall.NewFastCache config.FastCacheSizeMB]
      ret := (b.NewFastCache config.FastCacheSizeMB, none) }
  else if config.CacheType = RemoteCache then
    { calls := [ConstructorCall.NewRedisCache config.RedisEndpoints config.RedisClusterEnable]
      ret := b.NewRedisCache config.RedisEndpoints config.RedisClusterEnable }
  else if config.CacheType = HybridCache then
    { calls := [ConstructorCall.NewHybridCache config]
      ret := b.NewHybridCache config }
  else
    { calls := []
      ret := (none, some errNotSupportedCacheType) }

/-- The backend constructors report failures of their own: neither
`NewRedisCache` nor `NewHybridCache` hands back the factory's
`errNotSupportedCacheType`.  (Section 7 of the specification lists the
unsupported cache type and the endpoint and cluster-mode failures as separate
configuration errors.) -/
def Backends.OwnErrors {Cache : Type} (b : Backends Cache) : Prop :=
  (∀ endpoints isCluster,
      (b.NewRedisCache endpoints isCluster).2 ≠ some errNotSupportedCacheType) ∧
    (∀ config, (b.NewHybridCache config).2 ≠ some errNotSupportedCacheType)

/-! ## Backend constructors described by the specification -/

/-- Modelled from the spec: `NewFastCache` is declared in another file of the
package.  Section 4.2: "If the configured size budget is zero, the factory must
construct no cache at all for this backend (return an explicit "no cache"
result rather than a zero-capacity cache)"; the note above `NewTrieNodeCache`
says the same.  For any other budget the construction is the parameter
`build`. -/
def NewFastCache {Cache : Type} (build : Int → Option Cache) (sizeMB : Int) : Option Cache :=
  if sizeMB = 0 then none else build sizeMB

/-- Modelled from the spec: the cache objects of section 2, reduced to the
configuration each one is built from: a local tier with its memory budget, a
remote tier with its endpoints and cluster flag, and a hybrid coordinator that
owns one of each. -/
inductive TierCache where
  | fast (sizeMB : Int)
  | redis (endpoints : List String) (isCluster : Bool)
  | hybrid (sizeMB : Int) (endpoints : List String) (isCluster : Bool)
deriving DecidableEq

/-- Modelled from the spec: the configuration error of the remote tier for an
empty endpoint list (sections 4.3 and 7). -/
def errNoRedisEndpoint : Error :=
  ⟨"redis endpoints are not specified"⟩

/-- Modelled from the spec: `NewRedisCache` is declared in another file of the
package.  Section 4.3: "Construction fails with a configuration error if the
endpoint list is empty"; otherwise a remote tier over the endpoints is
returned. -/
def NewRedisCache (endpoints : List String) (isCluster : Bool) :
    Option TierCache × Option Error :=
  if endpoints = [] then (none, some errNoRedisEndpoint)
  else (some (TierCache.redis endpoints isCluster), none)

/-- Modelled from the spec: `NewHybridCache` is declared in another file of the
package.  Sections 2 and 4.4: the hybrid coordinator composes a local tier,
sized by the configured memory budget, and a remote tier; section 4.5: a
failure to construct a sub-backend is the failure of the coordinator. -/
def NewHybridCache (config : TrieNodeCacheConfig) : Option TierCache × Option Error :=
  if config.RedisEndpoints = [] then (none, some errNoRedisEndpoint)
  else (some (TierCache.hybrid config.FastCacheSizeMB config.RedisEndpoints
    config.RedisClusterEnable), none)

/-- Modelled from the spec: the three constructors above, as the factory's
backends. -/
def specBackends : Backends TierCache where
  NewFastCache := NewFastCache (fun sizeMB => some (TierCache.fast sizeMB))
  NewRedisCache := NewRedisCache
  NewHybridCache := NewHybridCache

/-! ## Equality up to letter case, as the specification words it

The definitions of this section do not come from the source.  They say what
"matching ignoring letter case" means for an input and an ASCII name, rune by
rune, and `ToValid` is compared with them below. -/

/-- Specification side: whether `R` is an ASCII capital letter and `r` the
small letter that belongs to it. -/
def isCapitalOf (R r : Char) : Bool :=
  decide (65 ≤ R.toNat) && decide (R.toNat ≤ 90) && decide (r.toNat = R.toNat + 32)

/-- Specification side: whether two ASCII runes are the same character up to
letter case: they are equal, or one is the capital of the other. -/
def sameLetterASCII (r c : Char) : Bool :=
  decide (r = c) || isCapitalOf r c || isCapitalOf c r

/-- Specification side: whether the rune `r` of an input spells the ASCII
character `c` up to letter case.  A rune outside ASCII does so when the case
table gives it an ASCII lower-case form that spells `c`. -/
def spellsLetter (tbl : Char → Char) (r c : Char) : Bool :=
  if r.toNat ≤ 127 then sameLetterASCII r c
  else decide ((tbl r).toNat ≤ 127) &&
    !(decide (65 ≤ (tbl r).toNat) && decide ((tbl r).toNat ≤ 90)) &&
    sameLetterASCII (tbl r) c

/-- Specification side: whether the runes `rs` spell the ASCII name `cs` up to
letter case: the same length, and rune by rune the same letter. -/
def equalIgnoringCase (tbl : Char → Char) : List Char → List Char → Bool
  | [], [] => true
  | r :: rs, c :: cs => spellsLetter tbl r c && equalIgnoringCase tbl rs cs
  | _, _ => false

/-- Specification side: whether the string `s` equals the ASCII name `c`
ignoring letter case. -/
def matchesIgnoringCase (tbl : Char → Char) (s c : String) : Bool :=
  equalIgnoringCase tbl s.data c.data

/-! ## Auxiliary facts -/

theorem ToLower_LocalCache (tbl : Char → Char) : ToLower tbl LocalCache = "localcache" := rfl

theorem ToLower_RemoteCache (tbl : Char → Char) : ToLower tbl RemoteCache = "remotecache" := rfl

theorem ToLower_HybridCache (tbl : Char → Char) : ToLower tbl HybridCache = "hybridcache" := rfl

theorem ToLower_empty (tbl : Char → Char) : ToLower tbl "" = "" := rfl

theorem mem_valid_iff (c : TrieNodeCacheType) :
    c ∈ validTrieNodeCacheTypes ↔ c = LocalCache ∨ c = RemoteCache ∨ c = HybridCache := by
  simp [validTrieNodeCacheTypes]

/-- The loop of `ToValid`, unrolled over the three entries of the table. -/
theorem ToValid_unroll (tbl : Char → Char) (s : TrieNodeCacheType) :
    ToValid tbl s =
      if ToLower tbl s = "localcache" then LocalCache
      else if ToLower tbl s = "remotecache" then RemoteCache
      else if ToLower tbl s = "hybridcache" then HybridCache
      else "" := by
  simp only [ToValid, validTrieNodeCacheTypes, ToValid.loop, ToLower_LocalCache,
    ToLower_RemoteCache, ToLower_HybridCache]

theorem ToValid_LocalCache (tbl : Char → Char) : ToValid tbl LocalCache = LocalCache := rfl

theorem ToValid_RemoteCache (tbl : Char → Char) : ToValid tbl RemoteCache = RemoteCache := rfl

theorem ToValid_HybridCache (tbl : Char → Char) : ToValid tbl HybridCache = HybridCache := rfl

theorem ToValid_empty (tbl : Char → Char) : ToValid tbl "" = "" := rfl

/-- The result of `ToValid` is a valid type or the empty string. -/
theorem ToValid_cases (tbl : Char → Char) (s : TrieNodeCacheType) :
    ToValid tbl s = LocalCache ∨ ToValid tbl s = RemoteCache ∨
      ToValid tbl s = HybridCache ∨ ToValid tbl s = "" := by
  rw [ToValid_unroll]
  split_ifs <;> simp

/-- The characterisation of `ToValid` on each valid type. -/
theorem ToValid_iff_lower (tbl : Char → Char) (s c : TrieNodeCacheType)
    (hc : c ∈ validTrieNodeCacheTypes) :
    ToValid tbl s = c ↔ ToLower tbl s = ToLower tbl c := by
  rw [mem_valid_iff] at hc
  rw [ToValid_unroll]
  rcases hc with rfl | rfl | rfl
  · rw [ToLower_LocalCache]
    split_ifs with h1 h2 h3 <;> simp_all [LocalCache, RemoteCache, HybridCache]
  · rw [ToLower_RemoteCache]
    split_ifs with h1 h2 h3 <;> simp_all [LocalCache, RemoteCache, HybridCache]
  · rw [ToLower_HybridCache]
    split_ifs with h1 h2 h3 <;> simp_all [LocalCache, RemoteCache, HybridCache]

theorem ToValid_eq_empty_iff (tbl : Char → Char) (s : TrieNodeCacheType) :
    ToValid tbl s = "" ↔ ∀ c ∈ validTrieNodeCacheTypes, ToLower tbl s ≠ ToLower tbl c := by
  rw [ToValid_unroll]
  simp only [validTrieNodeCacheTypes, List.mem_cons, List.mem_singleton, forall_eq_or_imp,
    forall_eq, ToLower_LocalCache, ToLower_RemoteCache, ToLower_HybridCache, List.not_mem_nil,
    false_implies, implies_true, and_true, List.mem_nil_iff, or_false]
  split_ifs with h1 h2 h3 <;> simp_all [LocalCache, RemoteCache, HybridCache]

theorem LocalCache_ne_RemoteCache : LocalCache ≠ RemoteCache := by decide

theorem LocalCache_ne_HybridCache : LocalCache ≠ HybridCache := by decide

theorem RemoteCache_ne_HybridCache : RemoteCache ≠ HybridCache := by decide

/-- The run of the `case LocalCache` branch. -/
theorem run_LocalCache {Cache : Type} (b : Backends Cache) (config : TrieNodeCacheConfig)
    (h : config.CacheType = LocalCache) :
    NewTrieNodeCache b config =
      { calls := [ConstructorCall.NewFastCache config.FastCacheSizeMB]
        ret := (b.NewFastCache config.FastCacheSizeMB, none) } := by
  simp [NewTrieNodeCache, h]

/-- The run of the `case RemoteCache` branch. -/
theorem run_RemoteCache {Cache : Type} (b : Backends Cache) (config : TrieNodeCacheConfig)
    (h : config.CacheType = RemoteCache) :
    NewTrieNodeCache b config =
      { calls := [ConstructorCall.NewRedisCache config.RedisEndpoints config.RedisClusterEnable]
        ret := b.NewRedisCache config.RedisEndpoints config.RedisClusterEnable } := by
  simp [NewTrieNodeCache, h, LocalCache_ne_RemoteCache.symm]

/-- The run of the `case HybridCache` branch. -/
theorem run_HybridCache {Cache : Type} (b : Backends Cache) (config : TrieNodeCacheConfig)
    (h : config.CacheType = HybridCache) :
    NewTrieNodeCache b config =
      { calls := [ConstructorCall.NewHybridCache config]
        ret := b.NewHybridCache config } := by
  simp [NewTrieNodeCache, h, LocalCache_ne_HybridCache.symm, RemoteCache_ne_HybridCache.symm]

/-- The run of the `default` branch. -/
theorem run_default {Cache : Type} (b : Backends Cache) (config : TrieNodeCacheConfig)
    (h1 : config.CacheType ≠ LocalCache) (h2 : config.CacheType ≠ RemoteCache)
    (h3 : config.CacheType ≠ HybridCache) :
    NewTrieNodeCache b config =
      { calls := []
        ret := (none, some errNotSupportedCacheType) } := by
  simp [NewTrieNodeCache, h1, h2, h3]

/-- A type that `ToValid` maps to the empty string is none of the valid types. -/
theorem not_valid_of_ToValid_empty (tbl : Char → Char) (t : TrieNodeCacheType)
    (h : ToValid tbl t = "") :
    t ≠ LocalCache ∧ t ≠ RemoteCache ∧ t ≠ HybridCache := by
  refine ⟨?_, ?_, ?_⟩ <;> rintro rfl
  · rw [ToValid_LocalCache] at h; exact absurd h (by decide)
  · rw [ToValid_RemoteCache] at h; exact absurd h (by decide)
  · rw [ToValid_HybridCache] at h; exact absurd h (by decide)

/-! ## The source's lower-casing against equality up to letter case -/

theorem toNat_ofNat_small (n : Nat) (h : n ≤ 127) : (Char.ofNat n).toNat = n := by
  have hfin : ∀ m : Fin 128, (Char.ofNat m.val).toNat = m.val := by decide
  exact hfin ⟨n, by omega⟩

theorem char_eq_iff_toNat (a b : Char) : a = b ↔ a.toNat = b.toNat := by
  constructor
  · rintro rfl; rfl
  · intro h
    rw [← Char.ofNat_toNat a, ← Char.ofNat_toNat b, h]

/-- The code point that `unicodeToLower` gives an ASCII rune. -/
theorem unicodeToLower_toNat_of_ascii (tbl : Char → Char) (r : Char) (h : r.toNat ≤ 127) :
    (unicodeToLower tbl r).toNat =
      if 65 ≤ r.toNat ∧ r.toNat ≤ 90 then r.toNat + 32 else r.toNat := by
  unfold unicodeToLower
  rw [if_pos h]
  split_ifs with h1
  · exact toNat_ofNat_small _ (by omega)
  · rfl

theorem sameLetterASCII_iff (r c : Char) :
    sameLetterASCII r c = true ↔
      (if 65 ≤ r.toNat ∧ r.toNat ≤ 90 then r.toNat + 32 else r.toNat) =
        (if 65 ≤ c.toNat ∧ c.toNat ≤ 90 then c.toNat + 32 else c.toNat) := by
  simp only [sameLetterASCII, isCapitalOf, Bool.or_eq_true, Bool.and_eq_true, decide_eq_true_eq,
    char_eq_iff_toNat r c]
  split_ifs <;> omega

/-- A rune spells an ASCII character up to case exactly when `unicodeToLower`
sends both to the same rune. -/
theorem spellsLetter_iff (tbl : Char → Char) (r c : Char) (hc : c.toNat ≤ 127) :
    spellsLetter tbl r c = true ↔ unicodeToLower tbl r = unicodeToLower tbl c := by
  rw [char_eq_iff_toNat, unicodeToLower_toNat_of_ascii tbl c hc]
  unfold spellsLetter
  by_cases hr : r.toNat ≤ 127
  · rw [if_pos hr, unicodeToLower_toNat_of_ascii tbl r hr, sameLetterASCII_iff]
  · rw [if_neg hr]
    have hu : unicodeToLower tbl r = tbl r := by unfold unicodeToLower; rw [if_neg hr]
    rw [hu]
    simp only [Bool.and_eq_true, decide_eq_true_eq, Bool.not_eq_true', Bool.and_eq_false_imp,
      decide_eq_false_iff_not, sameLetterASCII_iff]
    split_ifs <;> omega

theorem equalIgnoringCase_iff (tbl : Char → Char) (rs cs : List Char)
    (hcs : ∀ c ∈ cs, c.toNat ≤ 127) :
    equalIgnoringCase tbl rs cs = true ↔
      rs.map (unicodeToLower tbl) = cs.map (unicodeToLower tbl) := by
  induction rs generalizing cs with
  | nil =>
    cases cs with
    | nil => simp [equalIgnoringCase]
    | cons c cs => simp [equalIgnoringCase]
  | cons r rs ih =>
    cases cs with
    | nil => simp [equalIgnoringCase]
    | cons c cs =>
      have hc : c.toNat ≤ 127 := hcs c (List.mem_cons_self c cs)
      have htl : ∀ x ∈ cs, x.toNat ≤ 127 := fun x hx => hcs x (List.mem_cons_of_mem c hx)
      simp only [equalIgnoringCase, Bool.and_eq_true, List.map_cons, List.cons.injEq,
        spellsLetter_iff tbl r c hc, ih cs htl]

/-- The names of the table are ASCII. -/
theorem valid_ascii (c : TrieNodeCacheType) (hc : c ∈ validTrieNodeCacheTypes) :
    ∀ x ∈ c.data, x.toNat ≤ 127 := by
  rw [mem_valid_iff] at hc
  rcases hc with rfl | rfl | rfl <;> decide

/-- For a name of the table, equality up to letter case is equality of the
lower-cased strings. -/
theorem matchesIgnoringCase_iff (tbl : Char → Char) (s c : TrieNodeCacheType)
    (hc : c ∈ validTrieNodeCacheTypes) :
    matchesIgnoringCase tbl s c = true ↔ ToLower tbl s = ToLower tbl c := by
  unfold matchesIgnoringCase ToLower
  rw [equalIgnoringCase_iff tbl s.data c.data (valid_ascii c hc)]
  exact ⟨fun h => congrArg String.mk h, fun h => congrArg String.data h⟩

/-- The characterisation of `ToValid` by equality up to letter case. -/
theorem ToValid_iff_matches (tbl : Char → Char) (s c : TrieNodeCacheType)
    (hc : c ∈ validTrieNodeCacheTypes) :
    ToValid tbl s = c ↔ matchesIgnoringCase tbl s c = true := by
  rw [matchesIgnoringCase_iff tbl s c hc]
  exact ToValid_iff_lower tbl s c hc

theorem ToValid_empty_iff_matches (tbl : Char → Char) (s : TrieNodeCacheType) :
    ToValid tbl s = "" ↔
      ∀ c ∈ validTrieNodeCacheTypes, matchesIgnoringCase tbl s c = false := by
  rw [ToValid_eq_empty_iff]
  constructor
  · intro h c hc
    have hne := (matchesIgnoringCase_iff tbl s c hc).not.mpr (h c hc)
    simpa using hne
  · intro h c hc
    refine (matchesIgnoringCase_iff tbl s c hc).not.mp ?_
    rw [h c hc]
    simp

/-! ## The validity table -/

/-- C4: `ToValid` is exactly case-insensitive canonicalisation.  For every
string `s` and every valid type `c`, `ToValid` maps `s` to `c` if and only if
the lower-cased `s` equals the lower-cased `c`; in particular `"localcache"`
is mapped to `"LocalCache"`. -/
theorem ToValid_eq_iff (tbl : Char → Char) (s c : TrieNodeCacheType)
    (hc : c ∈ validTrieNodeCacheTypes) :
    (ToValid tbl s = c ↔ ToLower tbl s = ToLower tbl c) ∧
      ToValid tbl "localcache" = "LocalCache" :=
  ⟨ToValid_iff_lower tbl s c hc, rfl⟩

/-- At the spelling `"REMOTEcache"` and the valid type `RemoteCache` the
characterisation yields the canonical name. -/
theorem ToValid_eq_iff_witness :
    RemoteCache ∈ validTrieNodeCacheTypes ∧ ToValid id "REMOTEcache" = RemoteCache :=
  ⟨by decide, (ToValid_eq_iff id "REMOTEcache" RemoteCache (by decide)).1.mpr rfl⟩

/-- C6: `ToValid` normalises into the closed set of cache types.  Its result is
one of the three canonical names or the empty string; it is the empty string
exactly when the input equals none of the three ignoring letter case, and
otherwise it is the one name the input equals ignoring letter case.  So
`"localcache"`, `"HYBRIDCACHE"` and `"rEmOtEcAcHe"` are normalised, and
`"bogus"`, `"Local Cache"` and `"LocalCach"` yield the empty string. -/
theorem ToValid_closed_set (tbl : Char → Char) (s : TrieNodeCacheType) :
    (ToValid tbl s = "LocalCache" ∨ ToValid tbl s = "RemoteCache" ∨
        ToValid tbl s = "HybridCache" ∨ ToValid tbl s = "") ∧
      (ToValid tbl s = "" ↔
        ∀ c ∈ validTrieNodeCacheTypes, matchesIgnoringCase tbl s c = false) ∧
      (∀ c ∈ validTrieNodeCacheTypes,
        ToValid tbl s = c ↔ matchesIgnoringCase tbl s c = true) ∧
      (ToValid tbl s = "" ↔
        ∀ c ∈ validTrieNodeCacheTypes, ToLower tbl s ≠ ToLower tbl c) ∧
      (ToValid tbl "localcache" = "LocalCache" ∧
        ToValid tbl "HYBRIDCACHE" = "HybridCache" ∧
        ToValid tbl "rEmOtEcAcHe" = "RemoteCache" ∧
        ToValid tbl "bogus" = "" ∧ ToValid tbl "Local Cache" = "" ∧
        ToValid tbl "LocalCach" = "") ∧
      (matchesIgnoringCase tbl "localcache" "LocalCache" = true ∧
        matchesIgnoringCase tbl "HYBRIDCACHE" "HybridCache" = true ∧
        matchesIgnoringCase tbl "bogus" "LocalCache" = false ∧
        matchesIgnoringCase tbl "LocalCach" "LocalCache" = false) :=
  ⟨ToValid_cases tbl s, ToValid_empty_iff_matches tbl s,
    fun c hc => ToValid_iff_matches tbl s c hc, ToValid_eq_empty_iff tbl s,
    ⟨rfl, rfl, rfl, rfl, rfl, rfl⟩, ⟨rfl, rfl, rfl, rfl⟩⟩

/-- C9: `ToValid` is idempotent and fixes the canonical names: applying it
twice is applying it once, and `LocalCache`, `RemoteCache`, `HybridCache` and
the empty string are each mapped to themselves. -/
theorem ToValid_idempotent (tbl : Char → Char) (s : TrieNodeCacheType) :
    ToValid tbl (ToValid tbl s) = ToValid tbl s ∧
      ToValid tbl LocalCache = LocalCache ∧ ToValid tbl RemoteCache = RemoteCache ∧
      ToValid tbl HybridCache = HybridCache ∧ ToValid tbl "" = "" := by
  refine ⟨?_, rfl, rfl, rfl, rfl⟩
  rcases ToValid_cases tbl s with h | h | h | h <;> rw [h] <;> rfl

/-! ## The factory -/

/-- C2: an unrecognised cache type is rejected.  For every config whose
`CacheType` is none of `LocalCache`, `RemoteCache`, `HybridCache`, whatever its
other fields, `NewTrieNodeCache` returns a nil cache together with
`errNotSupportedCacheType`, which is a non-nil error, and calls no backend
constructor. -/
theorem NewTrieNodeCache_unrecognized {Cache : Type} (b : Backends Cache)
    (config : TrieNodeCacheConfig)
    (h1 : config.CacheType ≠ LocalCache) (h2 : config.CacheType ≠ RemoteCache)
    (h3 : config.CacheType ≠ HybridCache) :
    (NewTrieNodeCache b config).ret = (none, some errNotSupportedCacheType) ∧
      (NewTrieNodeCache b config).ret.2 ≠ none ∧
      (NewTrieNodeCache b config).calls = [] := by
  rw [run_default b config h1 h2 h3]
  simp

/-- The types `"bogus"` and `""` are rejected, here with a populated config. -/
theorem NewTrieNodeCache_unrecognized_witness :
    ((NewTrieNodeCache specBackends ⟨"bogus", 64, ["10.0.0.1:6379"], true⟩).ret
        = (none, some errNotSupportedCacheType) ∧
      (NewTrieNodeCache specBackends ⟨"bogus", 64, ["10.0.0.1:6379"], true⟩).ret.2 ≠ none ∧
      (NewTrieNodeCache specBackends ⟨"bogus", 64, ["10.0.0.1:6379"], true⟩).calls = []) ∧
    ((NewTrieNodeCache specBackends ⟨"", 0, [], false⟩).ret
        = (none, some errNotSupportedCacheType) ∧
      (NewTrieNodeCache specBackends ⟨"", 0, [], false⟩).ret.2 ≠ none ∧
      (NewTrieNodeCache specBackends ⟨"", 0, [], false⟩).calls = []) :=
  ⟨NewTrieNodeCache_unrecognized specBackends ⟨"bogus", 64, ["10.0.0.1:6379"], true⟩
      (by decide) (by decide) (by decide),
    NewTrieNodeCache_unrecognized specBackends ⟨"", 0, [], false⟩
      (by decide) (by decide) (by decide)⟩

/-- C3: the disabled cache.  With `NewFastCache` as the specification describes
it, every config with `CacheType = LocalCache` and `FastCacheSizeMB = 0`, for
any Redis endpoints and cluster flag and any other two constructors, makes
`NewTrieNodeCache` return `(nil, nil)`: no constructed cache and no error. -/
theorem NewTrieNodeCache_disabled {Cache : Type} (build : Int → Option Cache)
    (redis : List String → Bool → Option Cache × Option Error)
    (hybrid : TrieNodeCacheConfig → Option Cache × Option Error)
    (config : TrieNodeCacheConfig)
    (hType : config.CacheType = LocalCache) (hSize : config.FastCacheSizeMB = 0) :
    (NewTrieNodeCache ⟨NewFastCache build, redis, hybrid⟩ config).ret = (none, none) ∧
      (∀ cache, (NewTrieNodeCache ⟨NewFastCache build, redis, hybrid⟩ config).ret.1
        ≠ some cache) ∧
      (∀ err, (NewTrieNodeCache ⟨NewFastCache build, redis, hybrid⟩ config).ret.2
        ≠ some err) := by
  rw [run_LocalCache _ config hType]
  simp [NewFastCache, hSize]

/-- The config `{LocalCache, 0, ["10.0.0.1:6379"], true}` yields `(nil, nil)`. -/
theorem NewTrieNodeCache_disabled_witness :
    (NewTrieNodeCache specBackends ⟨LocalCache, 0, ["10.0.0.1:6379"], true⟩).ret
      = (none, none) :=
  (NewTrieNodeCache_disabled (fun sizeMB => some (TierCache.fast sizeMB)) NewRedisCache
    NewHybridCache ⟨LocalCache, 0, ["10.0.0.1:6379"], true⟩ rfl rfl).1

/-- C5: construction results are propagated unchanged.  With
`CacheType = RemoteCache` the factory returns exactly the pair of
`NewRedisCache(config.RedisEndpoints, config.RedisClusterEnable)`, with
`CacheType = HybridCache` exactly the pair of `NewHybridCache(config)`; so a
constructor error comes back as it is, neither replaced by
`errNotSupportedCacheType` nor dropped. -/
theorem NewTrieNodeCache_propagates {Cache : Type} (b : Backends Cache)
    (config : TrieNodeCacheConfig) :
    (config.CacheType = RemoteCache →
      (NewTrieNodeCache b config).ret =
          b.NewRedisCache config.RedisEndpoints config.RedisClusterEnable ∧
        ∀ err, (b.NewRedisCache config.RedisEndpoints config.RedisClusterEnable).2 = some err →
          (NewTrieNodeCache b config).ret.2 = some err) ∧
    (config.CacheType = HybridCache →
      (NewTrieNodeCache b config).ret = b.NewHybridCache config ∧
        ∀ err, (b.NewHybridCache config).2 = some err →
          (NewTrieNodeCache b config).ret.2 = some err) := by
  constructor
  · intro h
    rw [run_RemoteCache b config h]
    exact ⟨rfl, fun _ he => he⟩
  · intro h
    rw [run_HybridCache b config h]
    exact ⟨rfl, fun _ he => he⟩

/-- With an empty endpoint list the error of the remote constructor, and of
the hybrid constructor, is what the factory returns. -/
theorem NewTrieNodeCache_propagates_witness :
    (NewTrieNodeCache specBackends ⟨RemoteCache, 64, [], false⟩).ret.2
        = some errNoRedisEndpoint ∧
      (NewTrieNodeCache specBackends ⟨HybridCache, 64, [], false⟩).ret.2
        = some errNoRedisEndpoint :=
  ⟨((NewTrieNodeCache_propagates specBackends ⟨RemoteCache, 64, [], false⟩).1 rfl).2
      errNoRedisEndpoint rfl,
    ((NewTrieNodeCache_propagates specBackends ⟨HybridCache, 64, [], false⟩).2 rfl).2
      errNoRedisEndpoint rfl⟩

/-- C10: the `LocalCache` branch never reports an error.  For every config
with `CacheType = LocalCache` and every integer `FastCacheSizeMB` the factory
returns a nil error and the cache `NewFastCache(config.FastCacheSizeMB)`; and
whenever the factory returns a non-nil error, either the type is unsupported
or the error is that of the `RemoteCache` or `HybridCache` constructor. -/
theorem NewTrieNodeCache_local_no_error {Cache : Type} (b : Backends Cache)
    (config : TrieNodeCacheConfig) :
    (config.CacheType = LocalCache →
      (NewTrieNodeCache b config).ret = (b.NewFastCache config.FastCacheSizeMB, none)) ∧
    (∀ err, (NewTrieNodeCache b config).ret.2 = some err →
      ((config.CacheType ≠ LocalCache ∧ config.CacheType ≠ RemoteCache ∧
          config.CacheType ≠ HybridCache) ∧ err = errNotSupportedCacheType) ∨
      (config.CacheType = RemoteCache ∧
        (b.NewRedisCache config.RedisEndpoints config.RedisClusterEnable).2 = some err) ∨
      (config.CacheType = HybridCache ∧ (b.NewHybridCache config).2 = some err)) := by
  constructor
  · intro h
    rw [run_LocalCache b config h]
  · intro err herr
    by_cases h1 : config.CacheType = LocalCache
    · rw [run_LocalCache b config h1] at herr
      simp at herr
    · by_cases h2 : config.CacheType = RemoteCache
      · rw [run_RemoteCache b config h2] at herr
        exact Or.inr (Or.inl ⟨h2, herr⟩)
      · by_cases h3 : config.CacheType = HybridCache
        · rw [run_HybridCache b config h3] at herr
          exact Or.inr (Or.inr ⟨h3, herr⟩)
        · rw [run_default b config h1 h2 h3] at herr
          simp at herr
          exact Or.inl ⟨⟨h1, h2, h3⟩, herr.symm⟩

/-- A negative budget is handed to `NewFastCache` and comes back without an
error, and the error returned for an empty endpoint list is traced to the
remote constructor. -/
theorem NewTrieNodeCache_local_no_error_witness :
    (NewTrieNodeCache specBackends ⟨LocalCache, -3, [], false⟩).ret
        = (specBackends.NewFastCache (-3), none) ∧
      ((((⟨RemoteCache, 64, [], false⟩ : TrieNodeCacheConfig).CacheType ≠ LocalCache ∧
            (⟨RemoteCache, 64, [], false⟩ : TrieNodeCacheConfig).CacheType ≠ RemoteCache ∧
            (⟨RemoteCache, 64, [], false⟩ : TrieNodeCacheConfig).CacheType ≠ HybridCache) ∧
          errNoRedisEndpoint = errNotSupportedCacheType) ∨
        ((⟨RemoteCache, 64, [], false⟩ : TrieNodeCacheConfig).CacheType = RemoteCache ∧
          (specBackends.NewRedisCache [] false).2 = some errNoRedisEndpoint) ∨
        ((⟨RemoteCache, 64, [], false⟩ : TrieNodeCacheConfig).CacheType = HybridCache ∧
          (specBackends.NewHybridCache ⟨RemoteCache, 64, [], false⟩).2
            = some errNoRedisEndpoint)) :=
  ⟨(NewTrieNodeCache_local_no_error specBackends ⟨LocalCache, -3, [], false⟩).1 rfl,
    (NewTrieNodeCache_local_no_error specBackends ⟨RemoteCache, 64, [], false⟩).2
      errNoRedisEndpoint rfl⟩

/-- A valid cache type is dispatched to a constructor. -/
theorem calls_ne_nil_of_valid {Cache : Type} (b : Backends Cache)
    (config : TrieNodeCacheConfig) (h : config.CacheType ∈ validTrieNodeCacheTypes) :
    (NewTrieNodeCache b config).calls ≠ [] := by
  rw [mem_valid_iff] at h
  rcases h with h | h | h
  · rw [run_LocalCache b config h]; simp
  · rw [run_RemoteCache b config h]; simp
  · rw [run_HybridCache b config h]; simp

/-- For a valid cache type the error returned is never the factory's own,
provided the constructors do not produce it. -/
theorem err_ne_notSupported_of_valid {Cache : Type} (b : Backends Cache)
    (config : TrieNodeCacheConfig) (h : config.CacheType ∈ validTrieNodeCacheTypes)
    (hb : b.OwnErrors) :
    (NewTrieNodeCache b config).ret.2 ≠ some errNotSupportedCacheType := by
  rw [mem_valid_iff] at h
  rcases h with h | h | h
  · rw [run_LocalCache b config h]; simp
  · rw [run_RemoteCache b config h]; exact hb.1 _ _
  · rw [run_HybridCache b config h]; exact hb.2 _

/-- A type outside the table takes the `default` branch. -/
theorem run_of_not_valid {Cache : Type} (b : Backends Cache)
    (config : TrieNodeCacheConfig) (h : config.CacheType ∉ validTrieNodeCacheTypes) :
    NewTrieNodeCache b config =
      { calls := []
        ret := (none, some errNotSupportedCacheType) } := by
  rw [mem_valid_iff] at h
  push_neg at h
  exact run_default b config h.1 h.2.1 h.2.2

/-- On the table `ToValid` is the identity. -/
theorem ToValid_of_valid (tbl : Char → Char) (c : TrieNodeCacheType)
    (hc : c ∈ validTrieNodeCacheTypes) : ToValid tbl c = c :=
  (ToValid_iff_lower tbl c c hc).mpr rfl

/-- A non-empty result of `ToValid` is an entry of the table. -/
theorem ToValid_mem_valid (tbl : Char → Char) (s : TrieNodeCacheType)
    (h : ToValid tbl s ≠ "") : ToValid tbl s ∈ validTrieNodeCacheTypes := by
  rw [mem_valid_iff]
  rcases ToValid_cases tbl s with h1 | h1 | h1 | h1
  · exact Or.inl h1
  · exact Or.inr (Or.inl h1)
  · exact Or.inr (Or.inr h1)
  · exact absurd h1 h

/-- A valid cache type does not end in the rejecting return. -/
theorem run_ne_default_of_valid {Cache : Type} (b : Backends Cache)
    (config : TrieNodeCacheConfig) (h : config.CacheType ∈ validTrieNodeCacheTypes) :
    NewTrieNodeCache b config ≠
      { calls := []
        ret := (none, some errNotSupportedCacheType) } := by
  intro heq
  have hcalls := calls_ne_nil_of_valid b config h
  rw [heq] at hcalls
  exact hcalls rfl

/-- Whatever error comes back for a valid cache type is the error of the
constructor of that type. -/
theorem err_of_valid {Cache : Type} (b : Backends Cache) (config : TrieNodeCacheConfig)
    (h : config.CacheType ∈ validTrieNodeCacheTypes) (err : Error)
    (herr : (NewTrieNodeCache b config).ret.2 = some err) :
    (config.CacheType = RemoteCache ∧
        (b.NewRedisCache config.RedisEndpoints config.RedisClusterEnable).2 = some err) ∨
      (config.CacheType = HybridCache ∧ (b.NewHybridCache config).2 = some err) := by
  rw [mem_valid_iff] at h
  rcases h with h | h | h
  · rw [run_LocalCache b config h] at herr
    simp at herr
  · rw [run_RemoteCache b config h] at herr
    exact Or.inl ⟨h, herr⟩
  · rw [run_HybridCache b config h] at herr
    exact Or.inr ⟨h, herr⟩

/-- The remote and hybrid constructors of the specification keep to their own
errors, whatever the constructor of the local tier. -/
theorem spec_OwnErrors (fast : Int → Option TierCache) :
    Backends.OwnErrors
      { NewFastCache := fast, NewRedisCache := NewRedisCache,
        NewHybridCache := NewHybridCache } := by
  constructor
  · intro endpoints isCluster
    show (NewRedisCache endpoints isCluster).2 ≠ _
    unfold NewRedisCache
    split_ifs <;> simp [errNoRedisEndpoint, errNotSupportedCacheType]
  · intro config
    show (NewHybridCache config).2 ≠ _
    unfold NewHybridCache
    split_ifs <;> simp [errNoRedisEndpoint, errNotSupportedCacheType]

/-- C1, as the code has it: `NewTrieNodeCache` compares `config.CacheType`
with the canonical spellings exactly, and `"localcache"`, which equals
`LocalCache` up to letter case, is rejected with `errNotSupportedCacheType`
whatever the backends, where the canonical spelling returns a nil error. -/
theorem NewTrieNodeCache_case_sensitive :
    (∀ tbl : Char → Char, ToLower tbl "localcache" = ToLower tbl LocalCache) ∧
    (∀ (Cache : Type) (b : Backends Cache),
      NewTrieNodeCache b ⟨"localcache", 64, [], false⟩ =
        { calls := []
          ret := (none, some errNotSupportedCacheType) } ∧
      (NewTrieNodeCache b ⟨LocalCache, 64, [], false⟩).ret = (b.NewFastCache 64, none) ∧
      (NewTrieNodeCache b ⟨"localcache", 64, [], false⟩).ret ≠
        (NewTrieNodeCache b ⟨LocalCache, 64, [], false⟩).ret) := by
  refine ⟨fun _ => rfl, fun Cache b => ?_⟩
  have h1 : NewTrieNodeCache b ⟨"localcache", 64, [], false⟩ =
      { calls := []
        ret := (none, some errNotSupportedCacheType) } :=
    run_default b _ (by decide) (by decide) (by decide)
  have h2 : NewTrieNodeCache b ⟨LocalCache, 64, [], false⟩ =
      { calls := [ConstructorCall.NewFastCache 64]
        ret := (b.NewFastCache 64, none) } :=
    run_LocalCache b _ rfl
  refine ⟨h1, by rw [h2], ?_⟩
  rw [h1, h2]
  simp

/-- C1, amended: the case-insensitive matching is that of `ToValid`, and the
factory matches exactly.  For every config whose `CacheType` equals a valid
type `c` ignoring letter case, `ToValid` yields `c`, and `NewTrieNodeCache` on
the config with the type so normalised runs exactly as on the config with the
canonical spelling `c`.  It dispatches to the matching constructor:
`NewFastCache(FastCacheSizeMB)` with a nil error for `LocalCache`,
`NewRedisCache(RedisEndpoints, RedisClusterEnable)` for `RemoteCache`,
`NewHybridCache` of the normalised config for `HybridCache`.  It does not end
in the rejecting return, any error it returns is the error of that
constructor, and with `NewRedisCache` and `NewHybridCache` as the
specification describes them the error is never `errNotSupportedCacheType`.
On the config as it stands, a spelling other than `c` itself is rejected with
`errNotSupportedCacheType`. -/
theorem NewTrieNodeCache_after_ToValid {Cache : Type} (tbl : Char → Char)
    (b : Backends Cache) (fast : Int → Option TierCache)
    (config : TrieNodeCacheConfig) (c : TrieNodeCacheType)
    (hc : c ∈ validTrieNodeCacheTypes)
    (hs : matchesIgnoringCase tbl config.CacheType c = true) :
    ToValid tbl config.CacheType = c ∧
      NewTrieNodeCache b { config with CacheType := ToValid tbl config.CacheType } =
        NewTrieNodeCache b { config with CacheType := c } ∧
      (c = LocalCache →
        NewTrieNodeCache b { config with CacheType := ToValid tbl config.CacheType } =
          { calls := [ConstructorCall.NewFastCache config.FastCacheSizeMB]
            ret := (b.NewFastCache config.FastCacheSizeMB, none) }) ∧
      (c = RemoteCache →
        NewTrieNodeCache b { config with CacheType := ToValid tbl config.CacheType } =
          { calls := [ConstructorCall.NewRedisCache config.RedisEndpoints
              config.RedisClusterEnable]
            ret := b.NewRedisCache config.RedisEndpoints config.RedisClusterEnable }) ∧
      (c = HybridCache →
        NewTrieNodeCache b { config with CacheType := ToValid tbl config.CacheType } =
          { calls := [ConstructorCall.NewHybridCache { config with CacheType := HybridCache }]
            ret := b.NewHybridCache { config with CacheType := HybridCache } }) ∧
      NewTrieNodeCache b { config with CacheType := ToValid tbl config.CacheType } ≠
        { calls := []
          ret := (none, some errNotSupportedCacheType) } ∧
      (∀ err,
        (NewTrieNodeCache b { config with CacheType := ToValid tbl config.CacheType }).ret.2
            = some err →
          (c = RemoteCache ∧
            (b.NewRedisCache config.RedisEndpoints config.RedisClusterEnable).2 = some err) ∨
          (c = HybridCache ∧
            (b.NewHybridCache { config with CacheType := HybridCache }).2 = some err)) ∧
      (NewTrieNodeCache
          { NewFastCache := fast, NewRedisCache := NewRedisCache,
            NewHybridCache := NewHybridCache }
          { config with CacheType := ToValid tbl config.CacheType }).ret.2
        ≠ some errNotSupportedCacheType ∧
      (config.CacheType ≠ c →
        NewTrieNodeCache b config =
          { calls := []
            ret := (none, some errNotSupportedCacheType) }) := by
  have hv : ToValid tbl config.CacheType = c := (ToValid_iff_matches tbl _ c hc).mpr hs
  rw [hv]
  refine ⟨rfl, rfl, ?_, ?_, ?_, run_ne_default_of_valid b _ hc, ?_,
    err_ne_notSupported_of_valid _ _ hc (spec_OwnErrors fast), ?_⟩
  · intro h
    exact run_LocalCache b { config with CacheType := c } h
  · intro h
    exact run_RemoteCache b { config with CacheType := c } h
  · intro h
    subst h
    exact run_HybridCache b { config with CacheType := HybridCache } rfl
  · intro err herr
    rcases err_of_valid b { config with CacheType := c } hc err herr with ⟨h, he⟩ | ⟨h, he⟩
    · exact Or.inl ⟨h, he⟩
    · have h' : c = HybridCache := h
      subst h'
      exact Or.inr ⟨rfl, he⟩
  · intro hne
    refine run_of_not_valid b config fun hmem => hne ?_
    rw [← hv]
    exact (ToValid_of_valid tbl _ hmem).symm

/-- The spelling `"HYBRIDCACHE"`, once normalised, is handed to
`NewHybridCache` as `HybridCache` is, and is rejected as it stands. -/
theorem NewTrieNodeCache_after_ToValid_witness :
    HybridCache ∈ validTrieNodeCacheTypes ∧
      matchesIgnoringCase id "HYBRIDCACHE" HybridCache = true ∧
      ToValid id "HYBRIDCACHE" = HybridCache ∧
      NewTrieNodeCache specBackends
          ⟨ToValid id "HYBRIDCACHE", 64, ["10.0.0.1:6379"], false⟩ =
        { calls := [ConstructorCall.NewHybridCache
            ⟨HybridCache, 64, ["10.0.0.1:6379"], false⟩]
          ret := specBackends.NewHybridCache ⟨HybridCache, 64, ["10.0.0.1:6379"], false⟩ } ∧
      NewTrieNodeCache specBackends ⟨"HYBRIDCACHE", 64, ["10.0.0.1:6379"], false⟩ =
        { calls := []
          ret := (none, some errNotSupportedCacheType) } :=
  ⟨by decide, by decide,
    (NewTrieNodeCache_after_ToValid id specBackends specBackends.NewFastCache
      ⟨"HYBRIDCACHE", 64, ["10.0.0.1:6379"], false⟩ HybridCache (by decide) (by decide)).1,
    (NewTrieNodeCache_after_ToValid id specBackends specBackends.NewFastCache
      ⟨"HYBRIDCACHE", 64, ["10.0.0.1:6379"], false⟩ HybridCache (by decide)
      (by decide)).2.2.2.2.1 rfl,
    (NewTrieNodeCache_after_ToValid id specBackends specBackends.NewFastCache
      ⟨"HYBRIDCACHE", 64, ["10.0.0.1:6379"], false⟩ HybridCache (by decide)
      (by decide)).2.2.2.2.2.2.2.2 (by decide)⟩

/-- C8: every cache type the factory accepts is canonical.  If
`NewTrieNodeCache` does not take the rejecting branch then `ToValid` fixes
`config.CacheType`; if `ToValid` maps the type to the empty string then
`NewTrieNodeCache` returns `(nil, errNotSupportedCacheType)`; and for every
type whose `ToValid` is non-empty, the factory on the config with the type
replaced by its `ToValid` does not take the rejecting branch: it calls the
constructor of that type and returns what the constructor returns, so that any
error is the constructor's, and with `NewRedisCache` and `NewHybridCache` as
the specification describes them the error is never
`errNotSupportedCacheType`. -/
theorem NewTrieNodeCache_accepts_canonical {Cache : Type} (tbl : Char → Char)
    (b : Backends Cache) (fast : Int → Option TierCache) (config : TrieNodeCacheConfig) :
    (NewTrieNodeCache b config ≠
        { calls := []
          ret := (none, some errNotSupportedCacheType) } →
      ToValid tbl config.CacheType = config.CacheType) ∧
    (ToValid tbl config.CacheType = "" →
      NewTrieNodeCache b config =
        { calls := []
          ret := (none, some errNotSupportedCacheType) }) ∧
    (ToValid tbl config.CacheType ≠ "" →
      NewTrieNodeCache b { config with CacheType := ToValid tbl config.CacheType } ≠
          { calls := []
            ret := (none, some errNotSupportedCacheType) } ∧
        (NewTrieNodeCache b { config with CacheType := ToValid tbl config.CacheType }).calls
          ≠ [] ∧
        ((ToValid tbl config.CacheType = LocalCache ∧
            NewTrieNodeCache b { config with CacheType := ToValid tbl config.CacheType } =
              { calls := [ConstructorCall.NewFastCache config.FastCacheSizeMB]
                ret := (b.NewFastCache config.FastCacheSizeMB, none) }) ∨
          (ToValid tbl config.CacheType = RemoteCache ∧
            NewTrieNodeCache b { config with CacheType := ToValid tbl config.CacheType } =
              { calls := [ConstructorCall.NewRedisCache config.RedisEndpoints
                  config.RedisClusterEnable]
                ret := b.NewRedisCache config.RedisEndpoints config.RedisClusterEnable }) ∨
          (ToValid tbl config.CacheType = HybridCache ∧
            NewTrieNodeCache b { config with CacheType := ToValid tbl config.CacheType } =
              { calls := [ConstructorCall.NewHybridCache
                  { config with CacheType := ToValid tbl config.CacheType }]
                ret := b.NewHybridCache
                  { config with CacheType := ToValid tbl config.CacheType } })) ∧
        (∀ err,
          (NewTrieNodeCache b
              { config with CacheType := ToValid tbl config.CacheType }).ret.2 = some err →
            (ToValid tbl config.CacheType = RemoteCache ∧
              (b.NewRedisCache config.RedisEndpoints config.RedisClusterEnable).2
                = some err) ∨
            (ToValid tbl config.CacheType = HybridCache ∧
              (b.NewHybridCache
                { config with CacheType := ToValid tbl config.CacheType }).2 = some err)) ∧
        (NewTrieNodeCache
            { NewFastCache := fast, NewRedisCache := NewRedisCache,
              NewHybridCache := NewHybridCache }
            { config with CacheType := ToValid tbl config.CacheType }).ret.2
          ≠ some errNotSupportedCacheType) := by
  refine ⟨fun hrun => ?_, fun hempty => ?_, fun hne => ?_⟩
  · by_cases hmem : config.CacheType ∈ validTrieNodeCacheTypes
    · exact ToValid_of_valid tbl _ hmem
    · exact absurd (run_of_not_valid b config hmem) hrun
  · obtain ⟨h1, h2, h3⟩ := not_valid_of_ToValid_empty tbl _ hempty
    exact run_default b config h1 h2 h3
  · have hmem := ToValid_mem_valid tbl _ hne
    refine ⟨run_ne_default_of_valid b _ hmem, calls_ne_nil_of_valid b _ hmem, ?_,
      fun err herr => err_of_valid b _ hmem err herr,
      err_ne_notSupported_of_valid _ _ hmem (spec_OwnErrors fast)⟩
    rcases (mem_valid_iff _).mp hmem with h | h | h
    · exact Or.inl ⟨h, run_LocalCache b _ h⟩
    · exact Or.inr (Or.inl ⟨h, run_RemoteCache b _ h⟩)
    · exact Or.inr (Or.inr ⟨h, run_HybridCache b _ h⟩)

/-- The accepted type `RemoteCache` is fixed by `ToValid`, `"bogus"` has an
empty `ToValid` and is rejected, and `"remotecache"` replaced by its `ToValid`
reaches `NewRedisCache` and is not answered with `errNotSupportedCacheType`. -/
theorem NewTrieNodeCache_accepts_canonical_witness :
    ToValid id RemoteCache = RemoteCache ∧
      NewTrieNodeCache specBackends ⟨"bogus", 64, [], false⟩ =
        { calls := []
          ret := (none, some errNotSupportedCacheType) } ∧
      (NewTrieNodeCache specBackends ⟨ToValid id "remotecache", 64, [], false⟩).calls
        ≠ [] ∧
      (NewTrieNodeCache specBackends ⟨ToValid id "remotecache", 64, [], false⟩).ret.2
        ≠ some errNotSupportedCacheType :=
  ⟨(NewTrieNodeCache_accepts_canonical id specBackends specBackends.NewFastCache
      ⟨RemoteCache, 64, [], false⟩).1
      (by rw [run_RemoteCache specBackends _ rfl]; simp),
    (NewTrieNodeCache_accepts_canonical id specBackends specBackends.NewFastCache
      ⟨"bogus", 64, [], false⟩).2.1 rfl,
    ((NewTrieNodeCache_accepts_canonical id specBackends specBackends.NewFastCache
      ⟨"remotecache", 64, [], false⟩).2.2 (by decide)).2.1,
    ((NewTrieNodeCache_accepts_canonical id specBackends specBackends.NewFastCache
      ⟨"remotecache", 64, [], false⟩).2.2 (by decide)).2.2.2.2⟩

/-- C7, as the code has it: with `CacheType = HybridCache` the whole config,
`FastCacheSizeMB` included, is handed to `NewHybridCache`, so two configs that
differ in `FastCacheSizeMB` alone reach the constructor with different
arguments, and with the hybrid constructor of the specification they yield
different caches although the type is not `LocalCache`. -/
theorem NewTrieNodeCache_hybrid_reads_size :
    HybridCache ≠ LocalCache ∧
    (∀ (Cache : Type) (b : Backends Cache),
      (NewTrieNodeCache b ⟨HybridCache, 64, ["10.0.0.1:6379"], false⟩).calls ≠
        (NewTrieNodeCache b ⟨HybridCache, 128, ["10.0.0.1:6379"], false⟩).calls) ∧
    (NewTrieNodeCache specBackends ⟨HybridCache, 64, ["10.0.0.1:6379"], false⟩).ret =
      (some (TierCache.hybrid 64 ["10.0.0.1:6379"] false), none) ∧
    (NewTrieNodeCache specBackends ⟨HybridCache, 128, ["10.0.0.1:6379"], false⟩).ret =
      (some (TierCache.hybrid 128 ["10.0.0.1:6379"] false), none) ∧
    (NewTrieNodeCache specBackends ⟨HybridCache, 64, ["10.0.0.1:6379"], false⟩).ret ≠
      (NewTrieNodeCache specBackends ⟨HybridCache, 128, ["10.0.0.1:6379"], false⟩).ret := by
  refine ⟨by decide, fun Cache b => ?_, ?_, ?_, ?_⟩
  · rw [run_HybridCache b _ rfl, run_HybridCache b _ rfl]
    simp
  · rw [run_HybridCache specBackends _ rfl]; rfl
  · rw [run_HybridCache specBackends _ rfl]; rfl
  · rw [run_HybridCache specBackends _ rfl, run_HybridCache specBackends _ rfl]
    simp [specBackends, NewHybridCache]

/-- C7, amended: the factory validates nothing but the cache type.  The
branch is fixed by `CacheType` alone: every config of type `LocalCache` calls
`NewFastCache(FastCacheSizeMB)` and returns its cache with a nil error, every
config of type `RemoteCache` calls `NewRedisCache(RedisEndpoints,
RedisClusterEnable)` and returns its pair, every config of type `HybridCache`
calls `NewHybridCache(config)` and returns its pair, and every config of
another type is rejected.  Hence `FastCacheSizeMB` has no influence unless the
type is `LocalCache` or `HybridCache`, the Redis fields none unless it is
`RemoteCache` or `HybridCache`, and no value of these fields is rejected by
the factory itself. -/
theorem NewTrieNodeCache_frame {Cache : Type} (b : Backends Cache)
    (t : TrieNodeCacheType) :
    ((t = LocalCache ∧ ∀ config : TrieNodeCacheConfig, config.CacheType = t →
        NewTrieNodeCache b config =
          { calls := [ConstructorCall.NewFastCache config.FastCacheSizeMB]
            ret := (b.NewFastCache config.FastCacheSizeMB, none) }) ∨
      (t = RemoteCache ∧ ∀ config : TrieNodeCacheConfig, config.CacheType = t →
        NewTrieNodeCache b config =
          { calls := [ConstructorCall.NewRedisCache config.RedisEndpoints
              config.RedisClusterEnable]
            ret := b.NewRedisCache config.RedisEndpoints config.RedisClusterEnable }) ∨
      (t = HybridCache ∧ ∀ config : TrieNodeCacheConfig, config.CacheType = t →
        NewTrieNodeCache b config =
          { calls := [ConstructorCall.NewHybridCache config]
            ret := b.NewHybridCache config }) ∨
      ((t ≠ LocalCache ∧ t ≠ RemoteCache ∧ t ≠ HybridCache) ∧
        ∀ config : TrieNodeCacheConfig, config.CacheType = t →
          NewTrieNodeCache b config =
            { calls := []
              ret := (none, some errNotSupportedCacheType) })) ∧
    (t ≠ LocalCache → t ≠ HybridCache →
      ∀ (config : TrieNodeCacheConfig) (sizeMB : Int), config.CacheType = t →
        NewTrieNodeCache b { config with FastCacheSizeMB := sizeMB } =
          NewTrieNodeCache b config) ∧
    (t ≠ RemoteCache → t ≠ HybridCache →
      ∀ (config : TrieNodeCacheConfig) (endpoints : List String) (isCluster : Bool),
        config.CacheType = t →
        NewTrieNodeCache b
            { config with RedisEndpoints := endpoints, RedisClusterEnable := isCluster } =
          NewTrieNodeCache b config) := by
  refine ⟨?_, ?_, ?_⟩
  · by_cases h1 : t = LocalCache
    · exact Or.inl ⟨h1, fun config h => run_LocalCache b config (h.trans h1)⟩
    · by_cases h2 : t = RemoteCache
      · exact Or.inr (Or.inl ⟨h2, fun config h => run_RemoteCache b config (h.trans h2)⟩)
      · by_cases h3 : t = HybridCache
        · exact Or.inr (Or.inr (Or.inl
            ⟨h3, fun config h => run_HybridCache b config (h.trans h3)⟩))
        · exact Or.inr (Or.inr (Or.inr ⟨⟨h1, h2, h3⟩, fun config h =>
            run_default b config (h ▸ h1) (h ▸ h2) (h ▸ h3)⟩))
  · intro h1 h3 config sizeMB h
    subst h
    by_cases h2 : config.CacheType = RemoteCache
    · rw [run_RemoteCache b config h2]
      exact run_RemoteCache b { config with FastCacheSizeMB := sizeMB } h2
    · rw [run_default b config h1 h2 h3]
      exact run_default b { config with FastCacheSizeMB := sizeMB } h1 h2 h3
  · intro h2 h3 config endpoints isCluster h
    subst h
    by_cases h1 : config.CacheType = LocalCache
    · rw [run_LocalCache b config h1]
      exact run_LocalCache b
        { config with RedisEndpoints := endpoints, RedisClusterEnable := isCluster } h1
    · rw [run_default b config h1 h2 h3]
      exact run_default b
        { config with RedisEndpoints := endpoints, RedisClusterEnable := isCluster } h1 h2 h3

/-- An empty endpoint list in cluster mode and a negative budget reach
`NewRedisCache` unexamined, and the budget plays no part in the outcome. -/
theorem NewTrieNodeCache_frame_witness :
    NewTrieNodeCache specBackends ⟨RemoteCache, -5, [], true⟩ =
        { calls := [ConstructorCall.NewRedisCache [] true]
          ret := specBackends.NewRedisCache [] true } ∧
      NewTrieNodeCache specBackends ⟨RemoteCache, 64, [], true⟩ =
        NewTrieNodeCache specBackends ⟨RemoteCache, -5, [], true⟩ := by
  constructor
  · rcases (NewTrieNodeCache_frame specBackends RemoteCache).1 with
      ⟨h, _⟩ | ⟨_, h⟩ | ⟨h, _⟩ | ⟨⟨_, h, _⟩, _⟩
    · exact absurd h (by decide)
    · exact h ⟨RemoteCache, -5, [], true⟩ rfl
    · exact absurd h (by decide)
    · exact absurd rfl h
  · exact (NewTrieNodeCache_frame specBackends RemoteCache).2.1 (by decide) (by decide)
      ⟨RemoteCache, -5, [], true⟩ 64 rfl

end statedb
